import Mathlib

/-!
Shallow embedding of the game-library REST server (`server.js`).

The server is a set of Express handlers over a MySQL table `juegos`
(columns `id`, `nombre`, `imagen_url`, `favorito`), a table `amigos`
(columns `id`, `nombre`), and a filesystem directory `public/img` of
uploaded images.  We model:

* the database as lists of rows plus the AUTO_INCREMENT counters;
* the media directory as the list of stored paths (relative to `public/`);
* each `db.promise().query(...)` call as a single-statement state
  transition; a `DbOutcome` parameter injects the
  possibility that the query throws (a store fault), which the handlers
  catch and turn into a 500 response;
* JSON bodies field-by-field, with JavaScript truthiness
  (`!x` rejects `undefined`, `""`, `false`, `0`, `null`);
* every handler as a pure function returning the response it sends
  (`none` when the code path sends no response at all), the new server
  state, and the trace of store/filesystem effects it performed.

`node-mysql2` connects with the `FOUND_ROWS` flag set (the default flag
set of node-mysql, which mysql2 mirrors), so `results.affectedRows` of an
UPDATE counts the rows *matched* by the WHERE clause, and of a DELETE the
rows deleted.
-/

namespace GameSrv

/-- A row of the `juegos` table. `favorito` is the raw stored column
value (the schema stores the boolean as 0/1, but the column type is
numeric, so we model it as `Nat`). -/
structure Game where
  id : Nat
  nombre : String
  imagen_url : String
  favorito : Nat
  deriving Repr, DecidableEq

/-- A row of the `amigos` table. -/
structure Friend where
  id : Nat
  nombre : String
  deriving Repr, DecidableEq

/-- The MySQL database `libreria`: both tables plus their AUTO_INCREMENT
counters (`nextGameId`, `nextFriendId` are the ids the next INSERTs get). -/
structure DB where
  juegos : List Game
  amigos : List Friend
  nextGameId : Nat
  nextFriendId : Nat
  deriving Repr, DecidableEq

/-- Server state: the database plus the media directory `public/img`,
as the list of stored file paths relative to `public/`. -/
structure ServerState where
  db : DB
  media : List String
  deriving Repr, DecidableEq

/-- A JSON value arriving in a request body field.  (Numbers are modelled
as integers; the only thing the server ever does with a non-string body
value is test its truthiness.) -/
inductive JsonVal where
  | null
  | bool (b : Bool)
  | num (n : Int)
  | str (s : String)
  deriving Repr, DecidableEq

/-- JavaScript truthiness of a JSON value. -/
def JsonVal.truthy : JsonVal → Bool
  | .null => false
  | .bool b => b
  | .num n => n != 0
  | .str s => s != ""

/-- JavaScript truthiness of a possibly-absent body field
(`undefined` is falsy). -/
def jsTruthy : Option JsonVal → Bool
  | none => false
  | some v => v.truthy

/-- JavaScript truthiness of a possibly-absent string body field:
`!x` fails exactly on an absent field and on the empty string. -/
def strTruthy : Option String → Bool
  | none => false
  | some s => s != ""

/-- Outcome of one `db.promise().query(...)` call: either it executes
normally, or the store throws an error with the given message. -/
inductive DbOutcome where
  | ok
  | fault (msg : String)
  deriving Repr, DecidableEq

/-- One observable effect of a handler: a database query (identified by
its SQL text) or a filesystem operation in `public/` (paths relative to
`public/`). -/
inductive Eff where
  | dbQuery (sql : String)
  | fsUnlink (path : String)
  | fsWrite (path : String)
  deriving Repr, DecidableEq

/-- The JSON body the server sends back, together with the HTTP status.
Absent fields are `none`; `res.json(...)` without `res.status(...)`
defaults to status 200. -/
structure HttpResponse where
  status : Nat
  message : Option String := none
  error : Option String := none
  data : Option (List Game) := none
  dataAmigos : Option (List Friend) := none
  changes : Option Nat := none
  id : Option Nat := none
  nombre : Option String := none
  imagen_url : Option String := none
  imageUrl : Option String := none
  deriving Repr, DecidableEq

/-- What one handler invocation did: the response it sent (`none` if the
code path sends no response), the state afterwards, and the effect trace. -/
structure HandlerResult where
  response : Option HttpResponse
  state : ServerState
  effects : List Eff
  deriving Repr, DecidableEq

/-! ### Record-store operations (the SQL statements) -/

/-- The `ORDER BY nombre` comparison on game rows. -/
def nombreLe (a b : Game) : Bool := decide (a.nombre ≤ b.nombre)

/-- The `ORDER BY nombre` comparison on friend rows. -/
def friendLe (a b : Friend) : Bool := decide (a.nombre ≤ b.nombre)

/-- `SELECT * FROM juegos ORDER BY nombre`: all rows sorted by `nombre`
ascending. -/
def selectAllGames (rows : List Game) : List Game :=
  rows.mergeSort nombreLe

/-- `SELECT * FROM juegos WHERE favorito = 1 ORDER BY nombre`. -/
def selectFavorites (rows : List Game) : List Game :=
  (rows.filter fun g => g.favorito == 1).mergeSort nombreLe

/-- `SELECT * FROM amigos ORDER BY nombre`. -/
def selectAllFriends (rows : List Friend) : List Friend :=
  rows.mergeSort friendLe

/-- `UPDATE juegos SET favorito = ? WHERE id = ?`. -/
def updateFavorito (rows : List Game) (i v : Nat) : List Game :=
  rows.map fun g => if g.id == i then { g with favorito := v } else g

/-- `UPDATE juegos SET nombre = ? WHERE id = ?`. -/
def updateNombre (rows : List Game) (i : Nat) (n : String) : List Game :=
  rows.map fun g => if g.id == i then { g with nombre := n } else g

/-- `UPDATE amigos SET nombre = ? WHERE id = ?`. -/
def updateFriendNombre (rows : List Friend) (i : Nat) (n : String) : List Friend :=
  rows.map fun g => if g.id == i then { g with nombre := n } else g

/-- Rows matched by `WHERE id = ?` (= `affectedRows` of an UPDATE under
the `FOUND_ROWS` client flag, and of a DELETE). -/
def matchedRows (rows : List Game) (i : Nat) : Nat :=
  rows.countP fun g => g.id == i

/-- Rows matched by `WHERE id = ?` in `amigos`. -/
def matchedFriendRows (rows : List Friend) (i : Nat) : Nat :=
  rows.countP fun g => g.id == i

/-- `DELETE FROM juegos WHERE id = ?`. -/
def deleteWhereId (rows : List Game) (i : Nat) : List Game :=
  rows.filter fun g => g.id != i

/-- `DELETE FROM amigos WHERE id = ?`. -/
def deleteFriendWhereId (rows : List Friend) (i : Nat) : List Friend :=
  rows.filter fun g => g.id != i

/-! ### Multer (Media Store) -/

/-- A file arriving at `upload.single('image')`: the form field name
(always `"image"` for this route), the client's original filename, and
the two sources of the unique suffix — `Date.now()` (milliseconds) and
`Math.round(Math.random() * 1E9)`. -/
structure UploadFile where
  fieldname : String
  originalname : String
  timestamp : Nat
  rand : Nat
  deriving Repr, DecidableEq

/-- Index of the last `'.'` in a character list, if any. -/
def lastDotIdx : List Char → Option Nat
  | [] => none
  | c :: cs =>
    match lastDotIdx cs with
    | some i => some (i + 1)
    | none => if c = '.' then some 0 else none

/-- `path.extname`: the substring from the last `'.'` to the end, and
`""` when there is no dot or the only dot is the leading character
(`".bashrc"` has no extension).  The original name is treated as a bare
filename (no directory part). -/
def extname (s : String) : String :=
  match lastDotIdx s.data with
  | none => ""
  | some 0 => ""
  | some i => (s.data.drop i).asString

/-- The generated stored filename:
`file.fieldname + '-' + Date.now() + '-' + Math.round(Math.random()*1E9) + path.extname(file.originalname)`. -/
def genFilename (f : UploadFile) : String :=
  f.fieldname ++ "-" ++ Nat.repr f.timestamp ++ "-" ++ Nat.repr f.rand
    ++ extname f.originalname

/-! ### Handlers -/

/-- SQL text constants (to name queries in effect traces). -/
def sqlSelectGames : String := "SELECT * FROM juegos ORDER BY nombre"

def sqlSelectFavorites : String :=
  "SELECT * FROM juegos WHERE favorito = 1 ORDER BY nombre"

def sqlUpdateFavorito : String := "UPDATE juegos SET favorito = ? WHERE id = ?"

def sqlInsertGame : String :=
  "INSERT INTO juegos (nombre, imagen_url, favorito) VALUES (?, ?, 0)"

def sqlSelectImagenUrl : String := "SELECT imagen_url FROM juegos WHERE id = ?"

def sqlDeleteGame : String := "DELETE FROM juegos WHERE id = ?"

def sqlUpdateNombre : String := "UPDATE juegos SET nombre = ? WHERE id = ?"

def sqlSelectFriends : String := "SELECT * FROM amigos ORDER BY nombre"

def sqlInsertFriend : String := "INSERT INTO amigos (nombre) VALUES (?)"

def sqlDeleteFriend : String := "DELETE FROM amigos WHERE id = ?"

def sqlUpdateFriendNombre : String := "UPDATE amigos SET nombre = ? WHERE id = ?"

/-- `GET /api/games`. -/
def getGames (st : ServerState) (q : DbOutcome) : HandlerResult :=
  match q with
  | .ok =>
    { response := some { status := 200, message := some "success",
                         data := some (selectAllGames st.db.juegos) },
      state := st, effects := [.dbQuery sqlSelectGames] }
  | .fault m =>
    { response := some { status := 500, error := some m },
      state := st, effects := [.dbQuery sqlSelectGames] }

/-- `GET /api/games/favorites`. -/
def getFavorites (st : ServerState) (q : DbOutcome) : HandlerResult :=
  match q with
  | .ok =>
    { response := some { status := 200, message := some "success",
                         data := some (selectFavorites st.db.juegos) },
      state := st, effects := [.dbQuery sqlSelectFavorites] }
  | .fault m =>
    { response := some { status := 500, error := some m },
      state := st, effects := [.dbQuery sqlSelectFavorites] }

/-- `PUT /api/games/:id/favorite`.  `favorito` is the request body's
`favorito` field (any JSON value, possibly absent);
`isFavoriteValue = req.body.favorito ? 1 : 0`. -/
def putFavorite (st : ServerState) (i : Nat) (favorito : Option JsonVal)
    (q : DbOutcome) : HandlerResult :=
  let isFavoriteValue : Nat := if jsTruthy favorito then 1 else 0
  match q with
  | .ok =>
    { response := some { status := 200, message := some "success",
                         changes := some (matchedRows st.db.juegos i) },
      state := { st with db := { st.db with
                   juegos := updateFavorito st.db.juegos i isFavoriteValue } },
      effects := [.dbQuery sqlUpdateFavorito] }
  | .fault m =>
    { response := some { status := 500, error := some m },
      state := st, effects := [.dbQuery sqlUpdateFavorito] }

/-- `POST /api/upload` (with the `upload.single('image')` middleware:
when a file is present multer writes it to `public/img/` under the
generated name before the handler body runs). -/
def postUpload (st : ServerState) (file : Option UploadFile) : HandlerResult :=
  match file with
  | none =>
    { response := some { status := 400, error := some "No se subió ningún archivo." },
      state := st, effects := [] }
  | some f =>
    let stored := "img/" ++ genFilename f
    { response := some { status := 200, imageUrl := some stored },
      state := { st with media := st.media ++ [stored] },
      effects := [.fsWrite stored] }

/-- `POST /api/games`. -/
def postGames (st : ServerState) (nombre imagen_url : Option String)
    (q : DbOutcome) : HandlerResult :=
  if !strTruthy nombre || !strTruthy imagen_url then
    { response := some { status := 400, error := some "El nombre y la URL de la imagen son requeridos." },
      state := st, effects := [] }
  else
    let n := nombre.getD ""
    let u := imagen_url.getD ""
    match q with
    | .ok =>
      { response := some { status := 201, message := some "Juego creado",
                           id := some st.db.nextGameId,
                           nombre := some n, imagen_url := some u },
        state := { st with db := { st.db with
          juegos := st.db.juegos ++
            [{ id := st.db.nextGameId, nombre := n, imagen_url := u,
               favorito := 0 }],
          nextGameId := st.db.nextGameId + 1 } },
        effects := [.dbQuery sqlInsertGame] }
    | .fault m =>
      { response := some { status := 500, error := some m },
        state := st, effects := [.dbQuery sqlInsertGame] }

/-- `DELETE /api/games/:id`.  `q1` is the outcome of the SELECT, `q2` of
the DELETE.  `unlinkOk` says whether the best-effort `fs.unlink`
succeeds (its failure is only logged).  When the DELETE matches no row
the source sends no response at all (`response := none`); that branch is
unreachable after a successful lookup. -/
def deleteGame (st : ServerState) (i : Nat) (unlinkOk : Bool)
    (q1 q2 : DbOutcome) : HandlerResult :=
  match q1 with
  | .fault m =>
    { response := some { status := 500, error := some m },
      state := st, effects := [.dbQuery sqlSelectImagenUrl] }
  | .ok =>
    let gameResult := (st.db.juegos.filter fun g => g.id == i).map
      fun g => g.imagen_url
    if gameResult.length == 0 then
      { response := some { status := 404,
                           error := some "Juego no encontrado." },
        state := st, effects := [.dbQuery sqlSelectImagenUrl] }
    else
      match q2 with
      | .fault m =>
        { response := some { status := 500, error := some m },
          state := st,
          effects := [.dbQuery sqlSelectImagenUrl, .dbQuery sqlDeleteGame] }
      | .ok =>
        let affected := matchedRows st.db.juegos i
        let db' := { st.db with juegos := deleteWhereId st.db.juegos i }
        if affected > 0 then
          let imageUrl := gameResult.headD ""
          { response := some { status := 200,
                               message := some "Juego eliminado correctamente." },
            state := { db := db',
                       media := if unlinkOk then st.media.erase imageUrl
                                else st.media },
            effects := [.dbQuery sqlSelectImagenUrl, .dbQuery sqlDeleteGame,
                        .fsUnlink imageUrl] }
        else
          { response := none,
            state := { st with db := db' },
            effects := [.dbQuery sqlSelectImagenUrl, .dbQuery sqlDeleteGame] }

/-- `PUT /api/games/:id`. -/
def putGameName (st : ServerState) (i : Nat) (nombre : Option String)
    (q : DbOutcome) : HandlerResult :=
  if !strTruthy nombre then
    { response := some { status := 400, error := some "El nombre es requerido." },
      state := st, effects := [] }
  else
    let n := nombre.getD ""
    match q with
    | .ok =>
      if matchedRows st.db.juegos i > 0 then
        { response := some { status := 200,
                             message := some "Juego actualizado correctamente." },
          state := { st with db := { st.db with
                       juegos := updateNombre st.db.juegos i n } },
          effects := [.dbQuery sqlUpdateNombre] }
      else
        { response := some { status := 404,
                             error := some "Juego no encontrado." },
          state := st, effects := [.dbQuery sqlUpdateNombre] }
    | .fault m =>
      { response := some { status := 500, error := some m },
        state := st, effects := [.dbQuery sqlUpdateNombre] }

/-- `GET /api/friends`. -/
def getFriends (st : ServerState) (q : DbOutcome) : HandlerResult :=
  match q with
  | .ok =>
    { response := some { status := 200, message := some "success",
                         dataAmigos := some (selectAllFriends st.db.amigos) },
      state := st, effects := [.dbQuery sqlSelectFriends] }
  | .fault m =>
    { response := some { status := 500, error := some m },
      state := st, effects := [.dbQuery sqlSelectFriends] }

/-- `POST /api/friends`. -/
def postFriends (st : ServerState) (nombre : Option String)
    (q : DbOutcome) : HandlerResult :=
  if !strTruthy nombre then
    { response := some { status := 400, error := some "El nombre es requerido." },
      state := st, effects := [] }
  else
    let n := nombre.getD ""
    match q with
    | .ok =>
      { response := some { status := 201, message := some "Amigo creado",
                           id := some st.db.nextFriendId, nombre := some n },
        state := { st with db := { st.db with
          amigos := st.db.amigos ++ [{ id := st.db.nextFriendId, nombre := n }],
          nextFriendId := st.db.nextFriendId + 1 } },
        effects := [.dbQuery sqlInsertFriend] }
    | .fault m =>
      { response := some { status := 500, error := some m },
        state := st, effects := [.dbQuery sqlInsertFriend] }

/-- `DELETE /api/friends/:id`. -/
def deleteFriend (st : ServerState) (i : Nat) (q : DbOutcome) : HandlerResult :=
  match q with
  | .ok =>
    if matchedFriendRows st.db.amigos i > 0 then
      { response := some { status := 200,
                           message := some "Amigo eliminado correctamente." },
        state := { st with db := { st.db with
                     amigos := deleteFriendWhereId st.db.amigos i } },
        effects := [.dbQuery sqlDeleteFriend] }
    else
      { response := some { status := 404,
                           error := some "Amigo no encontrado." },
        state := st, effects := [.dbQuery sqlDeleteFriend] }
  | .fault m =>
    { response := some { status := 500, error := some m },
      state := st, effects := [.dbQuery sqlDeleteFriend] }

/-- `PUT /api/friends/:id`. -/
def putFriendName (st : ServerState) (i : Nat) (nombre : Option String)
    (q : DbOutcome) : HandlerResult :=
  if !strTruthy nombre then
    { response := some { status := 400, error := some "El nombre es requerido." },
      state := st, effects := [] }
  else
    let n := nombre.getD ""
    match q with
    | .ok =>
      if matchedFriendRows st.db.amigos i > 0 then
        { response := some { status := 200,
                             message := some "Amigo actualizado correctamente." },
          state := { st with db := { st.db with
                       amigos := updateFriendNombre st.db.amigos i n } },
          effects := [.dbQuery sqlUpdateFriendNombre] }
      else
        { response := some { status := 404,
                             error := some "Amigo no encontrado." },
          state := st, effects := [.dbQuery sqlUpdateFriendNombre] }
    | .fault m =>
      { response := some { status := 500, error := some m },
        state := st, effects := [.dbQuery sqlUpdateFriendNombre] }

/-- The game list a sent response carries (empty if absent). -/
def respData (r : HandlerResult) : List Game :=
  ((r.response.map fun h => h.data).join).getD []

/-- The invariant of the `favorito` column: every stored value is 0 or 1. -/
def FavInv (db : DB) : Prop :=
  ∀ g ∈ db.juegos, g.favorito = 0 ∨ g.favorito = 1

/-- Numeric value of a decimal digit character. -/
def digitVal (c : Char) : Nat := c.toNat - 48

/-- The number denoted by a list of decimal digit characters. -/
def valOfDigits (l : List Char) : Nat :=
  l.foldl (fun a c => 10 * a + digitVal c) 0

/-! ### Concrete fixtures used by witnesses and counterexamples -/

/-- Empty database, empty media directory. -/
def st0 : ServerState :=
  { db := { juegos := [], amigos := [], nextGameId := 1, nextFriendId := 1 },
    media := [] }

/-- A sample stored game. -/
def g1 : Game :=
  { id := 1, nombre := "Chess", imagen_url := "img/a.png", favorito := 0 }

/-- State holding exactly the game `g1`, whose image is on disk. -/
def stOne : ServerState :=
  { db := { juegos := [g1], amigos := [], nextGameId := 2, nextFriendId := 1 },
    media := ["img/a.png"] }

/-- A sample upload. -/
def fU : UploadFile :=
  { fieldname := "image", originalname := "foto.png", timestamp := 1000,
    rand := 42 }

end GameSrv

namespace GameSrv

/-! ### Ordering helper lemmas -/

lemma nombreLe_trans : ∀ a b c : Game,
    nombreLe a b = true → nombreLe b c = true → nombreLe a c = true := by
  intro a b c hab hbc
  simp only [nombreLe, decide_eq_true_eq] at *
  exact le_trans hab hbc

lemma nombreLe_total : ∀ a b : Game, (nombreLe a b || nombreLe b a) = true := by
  intro a b
  simp only [nombreLe, Bool.or_eq_true, decide_eq_true_eq]
  exact le_total a.nombre b.nombre

lemma mergeSort_nombre_sorted (rows : List Game) :
    (rows.mergeSort nombreLe).Pairwise (fun a b : Game => a.nombre ≤ b.nombre) := by
  have h := List.sorted_mergeSort nombreLe_trans nombreLe_total rows
  exact h.imp fun hab => by simpa [nombreLe] using hab

/-- Claim C5: `GET /api/games` answers `success` with exactly the rows of
the `juegos` table sorted by `nombre` ascending, and
`GET /api/games/favorites` answers `success` with exactly the rows having
`favorito = 1`, in the same `nombre`-ascending order. -/
theorem listGames_sorted_and_favorites_filtered (st : ServerState) :
    ∃ l lf : List Game,
      (getGames st .ok).response =
        some { status := 200, message := some "success", data := some l } ∧
      List.Perm l st.db.juegos ∧
      l.Pairwise (fun a b : Game => a.nombre ≤ b.nombre) ∧
      (getFavorites st .ok).response =
        some { status := 200, message := some "success", data := some lf } ∧
      List.Perm lf (st.db.juegos.filter fun g => g.favorito == 1) ∧
      lf.Pairwise (fun a b : Game => a.nombre ≤ b.nombre) := by
  refine ⟨selectAllGames st.db.juegos, selectFavorites st.db.juegos,
    rfl, ?_, ?_, rfl, ?_, ?_⟩
  · exact List.mergeSort_perm st.db.juegos nombreLe
  · exact mergeSort_nombre_sorted st.db.juegos
  · exact List.mergeSort_perm _ nombreLe
  · exact mergeSort_nombre_sorted _

/-- Claim C1 (counterexample): on an empty table, the favorite endpoint
does not answer 404 for a missing id — it answers 200 `success` with
`changes = 0`. -/
theorem setFavorite_missing_id_counterexample :
    (putFavorite st0 1 (some (JsonVal.bool true)) .ok).response =
      some { status := 200, message := some "success", changes := some 0 } := by
  decide

/-- Claim C1 (amended): `PUT /api/games/:id/favorite` never answers
NotFound.  For every id (matched or not) and every body it answers
status 200 with `message = "success"` and `changes` = the number of rows
matching the id; in particular `changes = 0` when no row matches. -/
theorem setFavorite_always_success (st : ServerState) (i : Nat)
    (favorito : Option JsonVal) :
    (putFavorite st i favorito .ok).response =
      some { status := 200, message := some "success",
             changes := some (matchedRows st.db.juegos i) } := rfl

/-- Claim C7: `POST /api/upload` stores the file in the media directory
under the generated name, returns only `{imageUrl}` (the relative path),
leaves the database untouched and performs no database query at all. -/
theorem upload_writes_no_records (st : ServerState) (f : UploadFile) :
    postUpload st (some f) =
      { response := some { status := 200,
                           imageUrl := some ("img/" ++ genFilename f) },
        state := { db := st.db, media := st.media ++ ["img/" ++ genFilename f] },
        effects := [.fsWrite ("img/" ++ genFilename f)] } ∧
    (postUpload st (some f)).state.db = st.db ∧
    (∀ e ∈ (postUpload st (some f)).effects, ∀ s, e ≠ Eff.dbQuery s) := by
  refine ⟨rfl, rfl, ?_⟩
  intro e he s
  simp only [postUpload, List.mem_singleton] at he
  subst he
  simp

/-- Witness for C7 at a concrete state and upload. -/
theorem upload_writes_no_records_witness :
    Eff.fsWrite ("img/" ++ genFilename fU) ≠ Eff.dbQuery sqlInsertGame :=
  (upload_writes_no_records st0 fU).2.2 (Eff.fsWrite ("img/" ++ genFilename fU))
    (by decide) sqlInsertGame

/-! ### Validation helper lemmas -/

lemma postGames_invalid (st : ServerState) (n u : Option String)
    (q : DbOutcome) (h : strTruthy n = false ∨ strTruthy u = false) :
    postGames st n u q =
      { response := some { status := 400, error := some "El nombre y la URL de la imagen son requeridos." },
        state := st, effects := [] } := by
  rcases h with h | h <;> simp [postGames, h]

lemma putGameName_invalid (st : ServerState) (i : Nat) (n : Option String)
    (q : DbOutcome) (h : strTruthy n = false) :
    putGameName st i n q =
      { response := some { status := 400, error := some "El nombre es requerido." },
        state := st, effects := [] } := by
  simp [putGameName, h]

lemma postFriends_invalid (st : ServerState) (n : Option String)
    (q : DbOutcome) (h : strTruthy n = false) :
    postFriends st n q =
      { response := some { status := 400, error := some "El nombre es requerido." },
        state := st, effects := [] } := by
  simp [postFriends, h]

lemma putFriendName_invalid (st : ServerState) (i : Nat) (n : Option String)
    (q : DbOutcome) (h : strTruthy n = false) :
    putFriendName st i n q =
      { response := some { status := 400, error := some "El nombre es requerido." },
        state := st, effects := [] } := by
  simp [putFriendName, h]

/-- Claim C4: every handler with required body fields (game create, game
rename, friend create, friend rename) rejects an absent or empty field
with a 400 client error carrying a descriptive message, leaves the state
unchanged and performs no store call (empty effect trace); in particular
`updateGameName(id, "")` is rejected before any store mutation. -/
theorem validation_rejects_before_store :
    (∀ (st : ServerState) (n u : Option String) (q : DbOutcome),
        strTruthy n = false ∨ strTruthy u = false →
        postGames st n u q =
          { response := some { status := 400, error := some "El nombre y la URL de la imagen son requeridos." },
            state := st, effects := [] }) ∧
    (∀ (st : ServerState) (i : Nat) (n : Option String) (q : DbOutcome),
        strTruthy n = false →
        putGameName st i n q =
          { response := some { status := 400, error := some "El nombre es requerido." },
            state := st, effects := [] }) ∧
    (∀ (st : ServerState) (n : Option String) (q : DbOutcome),
        strTruthy n = false →
        postFriends st n q =
          { response := some { status := 400, error := some "El nombre es requerido." },
            state := st, effects := [] }) ∧
    (∀ (st : ServerState) (i : Nat) (n : Option String) (q : DbOutcome),
        strTruthy n = false →
        putFriendName st i n q =
          { response := some { status := 400, error := some "El nombre es requerido." },
            state := st, effects := [] }) ∧
    (∀ (st : ServerState) (i : Nat) (q : DbOutcome),
        putGameName st i (some "") q =
          { response := some { status := 400, error := some "El nombre es requerido." },
            state := st, effects := [] }) :=
  ⟨postGames_invalid, putGameName_invalid, postFriends_invalid,
   putFriendName_invalid,
   fun st i q => putGameName_invalid st i (some "") q (by decide)⟩

/-- Witness for C4: renaming game 7 to `""` on the empty store is
rejected with a 400, no effects. -/
theorem validation_rejects_before_store_witness :
    putGameName st0 7 (some "") .ok =
      { response := some { status := 400, error := some "El nombre es requerido." },
        state := st0, effects := [] } :=
  validation_rejects_before_store.2.2.2.2 st0 7 .ok

/-! ### `favorito` invariant helper lemmas -/

lemma favInv_updateFavorito {rows : List Game}
    (h : ∀ g ∈ rows, g.favorito = 0 ∨ g.favorito = 1) (i v : Nat)
    (hv : v = 0 ∨ v = 1) :
    ∀ g ∈ updateFavorito rows i v, g.favorito = 0 ∨ g.favorito = 1 := by
  intro g hg
  simp only [updateFavorito, List.mem_map] at hg
  obtain ⟨g0, hg0, rfl⟩ := hg
  split
  · simpa using hv
  · exact h g0 hg0

lemma favInv_updateNombre {rows : List Game}
    (h : ∀ g ∈ rows, g.favorito = 0 ∨ g.favorito = 1) (i : Nat) (n : String) :
    ∀ g ∈ updateNombre rows i n, g.favorito = 0 ∨ g.favorito = 1 := by
  intro g hg
  simp only [updateNombre, List.mem_map] at hg
  obtain ⟨g0, hg0, rfl⟩ := hg
  split
  · simpa using h g0 hg0
  · exact h g0 hg0

lemma favInv_deleteWhereId {rows : List Game}
    (h : ∀ g ∈ rows, g.favorito = 0 ∨ g.favorito = 1) (i : Nat) :
    ∀ g ∈ deleteWhereId rows i, g.favorito = 0 ∨ g.favorito = 1 :=
  fun g hg => h g (List.mem_of_mem_filter hg)

/-! ### Per-handler shape of the `juegos` table -/

lemma putFavorite_juegos (st : ServerState) (i : Nat) (b : Option JsonVal)
    (q : DbOutcome) :
    (putFavorite st i b q).state.db.juegos = st.db.juegos ∨
    ∃ v, (v = 0 ∨ v = 1) ∧
      (putFavorite st i b q).state.db.juegos = updateFavorito st.db.juegos i v := by
  rcases q with _ | m
  · exact Or.inr ⟨_, by by_cases hb : jsTruthy b <;> simp [hb], rfl⟩
  · exact Or.inl rfl

lemma postGames_juegos (st : ServerState) (n u : Option String)
    (q : DbOutcome) :
    (postGames st n u q).state.db.juegos = st.db.juegos ∨
    (postGames st n u q).state.db.juegos = st.db.juegos ++
      [{ id := st.db.nextGameId, nombre := n.getD "", imagen_url := u.getD "",
         favorito := 0 }] := by
  unfold postGames
  split
  · exact Or.inl rfl
  · rcases q with _ | m
    · exact Or.inr rfl
    · exact Or.inl rfl

lemma putGameName_juegos (st : ServerState) (i : Nat) (n : Option String)
    (q : DbOutcome) :
    (putGameName st i n q).state.db.juegos = st.db.juegos ∨
    (putGameName st i n q).state.db.juegos =
      updateNombre st.db.juegos i (n.getD "") := by
  unfold putGameName
  split
  · exact Or.inl rfl
  · rcases q with _ | m
    · dsimp only
      split
      · exact Or.inr rfl
      · exact Or.inl rfl
    · exact Or.inl rfl

lemma deleteGame_juegos (st : ServerState) (i : Nat) (u : Bool)
    (q1 q2 : DbOutcome) :
    (deleteGame st i u q1 q2).state.db.juegos = st.db.juegos ∨
    (deleteGame st i u q1 q2).state.db.juegos = deleteWhereId st.db.juegos i := by
  rcases q1 with _ | m
  · simp only [deleteGame]
    split
    · exact Or.inl rfl
    · rcases q2 with _ | m2
      · dsimp only
        split
        · exact Or.inr rfl
        · exact Or.inr rfl
      · exact Or.inl rfl
  · exact Or.inl rfl

lemma postUpload_db (st : ServerState) (f : Option UploadFile) :
    (postUpload st f).state.db = st.db := by
  rcases f with _ | f <;> rfl

lemma getGames_db (st : ServerState) (q : DbOutcome) :
    (getGames st q).state.db = st.db := by
  rcases q with _ | m <;> rfl

lemma getFavorites_db (st : ServerState) (q : DbOutcome) :
    (getFavorites st q).state.db = st.db := by
  rcases q with _ | m <;> rfl

lemma getFriends_db (st : ServerState) (q : DbOutcome) :
    (getFriends st q).state.db = st.db := by
  rcases q with _ | m <;> rfl

lemma postFriends_juegos (st : ServerState) (n : Option String)
    (q : DbOutcome) :
    (postFriends st n q).state.db.juegos = st.db.juegos := by
  unfold postFriends
  split
  · rfl
  · rcases q with _ | m <;> rfl

lemma deleteFriend_juegos (st : ServerState) (i : Nat) (q : DbOutcome) :
    (deleteFriend st i q).state.db.juegos = st.db.juegos := by
  rcases q with _ | m
  · simp only [deleteFriend]
    split <;> rfl
  · rfl

lemma putFriendName_juegos (st : ServerState) (i : Nat) (n : Option String)
    (q : DbOutcome) :
    (putFriendName st i n q).state.db.juegos = st.db.juegos := by
  unfold putFriendName
  split
  · rfl
  · rcases q with _ | m
    · dsimp only
      split <;> rfl
    · rfl

/-- Claim C10: starting from any state whose `favorito` column holds only
0/1, every handler preserves that invariant; the insert writes the
literal 0 and the favorite endpoint writes the truthiness coercion
(1 for truthy, 0 otherwise) whatever JSON value the body holds. -/
theorem favorito_always_bit (st : ServerState) (h : FavInv st.db) :
    (∀ (i : Nat) (b : Option JsonVal) (q : DbOutcome),
        FavInv (putFavorite st i b q).state.db) ∧
    (∀ (n u : Option String) (q : DbOutcome),
        FavInv (postGames st n u q).state.db) ∧
    (∀ (i : Nat) (n : Option String) (q : DbOutcome),
        FavInv (putGameName st i n q).state.db) ∧
    (∀ (i : Nat) (u : Bool) (q1 q2 : DbOutcome),
        FavInv (deleteGame st i u q1 q2).state.db) ∧
    (∀ f : Option UploadFile, FavInv (postUpload st f).state.db) ∧
    (∀ q : DbOutcome, FavInv (getGames st q).state.db ∧
        FavInv (getFavorites st q).state.db ∧
        FavInv (getFriends st q).state.db) ∧
    (∀ (n : Option String) (q : DbOutcome),
        FavInv (postFriends st n q).state.db) ∧
    (∀ (i : Nat) (q : DbOutcome), FavInv (deleteFriend st i q).state.db) ∧
    (∀ (i : Nat) (n : Option String) (q : DbOutcome),
        FavInv (putFriendName st i n q).state.db) := by
  refine ⟨?_, ?_, ?_, ?_, ?_, ?_, ?_, ?_, ?_⟩
  · intro i b q g hg
    rcases putFavorite_juegos st i b q with he | ⟨v, hv, he⟩
    · exact h g (he ▸ hg)
    · exact favInv_updateFavorito h i v hv g (he ▸ hg)
  · intro n u q g hg
    rcases postGames_juegos st n u q with he | he
    · exact h g (he ▸ hg)
    · rw [he] at hg
      rcases List.mem_append.1 hg with hg | hg
      · exact h g hg
      · rw [List.mem_singleton.1 hg]
        exact Or.inl rfl
  · intro i n q g hg
    rcases putGameName_juegos st i n q with he | he
    · exact h g (he ▸ hg)
    · exact favInv_updateNombre h i _ g (he ▸ hg)
  · intro i u q1 q2 g hg
    rcases deleteGame_juegos st i u q1 q2 with he | he
    · exact h g (he ▸ hg)
    · exact favInv_deleteWhereId h i g (he ▸ hg)
  · intro f g hg
    exact h g (postUpload_db st f ▸ hg)
  · intro q
    refine ⟨fun g hg => h g (getGames_db st q ▸ hg),
            fun g hg => h g (getFavorites_db st q ▸ hg),
            fun g hg => h g (getFriends_db st q ▸ hg)⟩
  · intro n q g hg
    exact h g (postFriends_juegos st n q ▸ hg)
  · intro i q g hg
    exact h g (deleteFriend_juegos st i q ▸ hg)
  · intro i n q g hg
    exact h g (putFriendName_juegos st i n q ▸ hg)


/-- Witness for C10 at a concrete state: toggling the favorite of the
single stored game with a string body keeps the column in {0, 1}. -/
theorem favorito_always_bit_witness :
    FavInv (putFavorite stOne 1 (some (JsonVal.str "yes")) .ok).state.db :=
  (favorito_always_bit stOne
    (by
      intro g hg
      simp only [stOne, List.mem_singleton] at hg
      subst hg
      exact Or.inl rfl)).1
    1 (some (JsonVal.str "yes")) .ok

/-! ### Response-data helper lemmas -/

lemma respData_getGames (st : ServerState) :
    respData (getGames st .ok) = selectAllGames st.db.juegos := rfl

lemma respData_getFavorites (st : ServerState) :
    respData (getFavorites st .ok) = selectFavorites st.db.juegos := rfl

lemma countP_selectAllGames (rows : List Game) (p : Game → Bool) :
    (selectAllGames rows).countP p = rows.countP p :=
  (List.mergeSort_perm rows nombreLe).countP_eq p

/-- Claim C3: with both fields non-empty, `POST /api/games` answers 201
with `{message, id, nombre, imagen_url}`, appends exactly one row with
the fresh id and `favorito = 0`, so the subsequent `GET /api/games`
lists exactly one row with that id, carrying the given fields and
`favorito = 0`; with an absent or empty field it answers 400 and neither
touches the state nor performs any store call. -/
theorem createGame_inserts (st : ServerState) (n u : String)
    (hn : n ≠ "") (hu : u ≠ "")
    (hfresh : ∀ g ∈ st.db.juegos, g.id < st.db.nextGameId) :
    (postGames st (some n) (some u) .ok).response =
      some { status := 201, message := some "Juego creado",
             id := some st.db.nextGameId, nombre := some n,
             imagen_url := some u } ∧
    (postGames st (some n) (some u) .ok).state.db.juegos =
      st.db.juegos ++
        [{ id := st.db.nextGameId, nombre := n, imagen_url := u,
           favorito := 0 }] ∧
    (respData (getGames (postGames st (some n) (some u) .ok).state .ok)).countP
        (fun g => g.id == st.db.nextGameId) = 1 ∧
    (∀ g ∈ respData (getGames (postGames st (some n) (some u) .ok).state .ok),
        g.id = st.db.nextGameId →
        g.nombre = n ∧ g.imagen_url = u ∧ g.favorito = 0) ∧
    (∀ (b1 b2 : Option String) (q : DbOutcome),
        strTruthy b1 = false ∨ strTruthy b2 = false →
        postGames st b1 b2 q =
          { response := some { status := 400, error := some "El nombre y la URL de la imagen son requeridos." },
            state := st, effects := [] }) := by
  have hcond : (!strTruthy (some n) || !strTruthy (some u)) = false := by
    simp [strTruthy, hn, hu]
  have hpost : postGames st (some n) (some u) .ok =
      { response := some { status := 201, message := some "Juego creado",
                           id := some st.db.nextGameId, nombre := some n,
                           imagen_url := some u },
        state := { st with db := { st.db with
          juegos := st.db.juegos ++
            [{ id := st.db.nextGameId, nombre := n, imagen_url := u,
               favorito := 0 }],
          nextGameId := st.db.nextGameId + 1 } },
        effects := [.dbQuery sqlInsertGame] } := by
    unfold postGames
    rw [hcond]
    exact rfl
  have hrows : (postGames st (some n) (some u) .ok).state.db.juegos =
      st.db.juegos ++
        [{ id := st.db.nextGameId, nombre := n, imagen_url := u,
           favorito := 0 }] := by
    rw [hpost]
  refine ⟨by rw [hpost], hrows, ?_, ?_,
    fun b1 b2 q hb => postGames_invalid st b1 b2 q hb⟩
  · rw [respData_getGames, hrows, countP_selectAllGames, List.countP_append]
    have h0 : st.db.juegos.countP (fun g => g.id == st.db.nextGameId) = 0 := by
      refine List.countP_eq_zero.2 fun g hg => ?_
      have := hfresh g hg
      simp only [beq_iff_eq]
      omega
    rw [h0]
    simp
  · intro g hg hid
    rw [respData_getGames, hrows] at hg
    simp only [selectAllGames, List.mem_mergeSort, List.mem_append,
      List.mem_singleton] at hg
    rcases hg with hg | rfl
    · exact absurd hid (Nat.ne_of_lt (hfresh g hg))
    · exact ⟨rfl, rfl, rfl⟩

/-- Witness for C3: creating `Chess` on the empty store yields exactly
one listed row with the fresh id. -/
theorem createGame_inserts_witness :
    (respData (getGames (postGames st0 (some "Chess") (some "img/a.png")
        .ok).state .ok)).countP (fun g => g.id == st0.db.nextGameId) = 1 :=
  (createGame_inserts st0 "Chess" "img/a.png" (by decide) (by decide)
    (by intro g hg; simp [st0] at hg)).2.2.1

/-- Claim C6: for an id present in the table, setting `favorito` with a
truthy body makes the favorites listing include that id, and then
setting it with a falsy body makes the favorites listing exclude it. -/
theorem favorite_toggle (st : ServerState) (i : Nat) (b1 b2 : Option JsonVal)
    (h1 : jsTruthy b1 = true) (h2 : jsTruthy b2 = false)
    (hmem : ∃ g ∈ st.db.juegos, g.id = i) :
    (∃ g' ∈ respData (getFavorites (putFavorite st i b1 .ok).state .ok),
        g'.id = i) ∧
    (∀ g' ∈ respData (getFavorites
        (putFavorite (putFavorite st i b1 .ok).state i b2 .ok).state .ok),
      g'.id ≠ i) := by
  have hst1 : (putFavorite st i b1 .ok).state.db.juegos =
      updateFavorito st.db.juegos i 1 := by
    unfold putFavorite
    rw [h1]
    exact rfl
  have hst2 : (putFavorite (putFavorite st i b1 .ok).state i b2
      .ok).state.db.juegos =
      updateFavorito (updateFavorito st.db.juegos i 1) i 0 := by
    unfold putFavorite
    rw [h1, h2]
    exact rfl
  constructor
  · obtain ⟨g, hg, hgid⟩ := hmem
    refine ⟨{ g with favorito := 1 }, ?_, hgid⟩
    rw [respData_getFavorites, hst1]
    simp only [selectFavorites, List.mem_mergeSort, List.mem_filter]
    refine ⟨?_, rfl⟩
    simp only [updateFavorito, List.mem_map]
    exact ⟨g, hg, by simp [hgid]⟩
  · intro g' hg' hid
    rw [respData_getFavorites, hst2] at hg'
    simp only [selectFavorites, List.mem_mergeSort, List.mem_filter,
      updateFavorito, List.mem_map] at hg'
    obtain ⟨⟨g0, hg0, heq⟩, hfav⟩ := hg'
    by_cases h0 : (g0.id == i) = true
    · rw [if_pos h0] at heq
      rw [← heq] at hfav
      simp at hfav
    · rw [if_neg h0] at heq
      rw [← heq] at hid
      simp [hid] at h0

/-- Witness for C6 on the one-game store. -/
theorem favorite_toggle_witness :
    (∃ g' ∈ respData (getFavorites
        (putFavorite stOne 1 (some (JsonVal.bool true)) .ok).state .ok),
      g'.id = 1) ∧
    (∀ g' ∈ respData (getFavorites
        (putFavorite (putFavorite stOne 1 (some (JsonVal.bool true)) .ok).state
          1 (some (JsonVal.bool false)) .ok).state .ok),
      g'.id ≠ 1) :=
  favorite_toggle stOne 1 (some (JsonVal.bool true)) (some (JsonVal.bool false))
    rfl rfl ⟨g1, by simp [stOne], rfl⟩

/-! ### Deletion helper lemmas -/

lemma filter_head_eq_find (p : Game → Bool) (l : List Game) :
    (l.filter p).head? = l.find? p := by
  induction l with
  | nil => rfl
  | cons a t ih =>
    by_cases h : p a = true
    · simp [List.filter_cons, h]
    · simp [List.filter_cons, h, ih]

lemma filter_cons_of_find (p : Game → Bool) (l : List Game) (g0 : Game)
    (hfind : l.find? p = some g0) :
    ∃ tl, l.filter p = g0 :: tl := by
  have hhead : (l.filter p).head? = some g0 := by
    rw [filter_head_eq_find]; exact hfind
  cases hf : l.filter p with
  | nil => rw [hf] at hhead; cases hhead
  | cons a t =>
    rw [hf] at hhead
    simp only [List.head?_cons, Option.some.injEq] at hhead
    exact ⟨t, by rw [hhead]⟩

/-- Claim C2: `DELETE /api/games/:id` looks the row up first; when no row
matches it answers 404, changes nothing, and touches no file; when a row
matches it deletes the row, answers 200, and attempts (best-effort) to
unlink that row's `imagen_url` — the unlink outcome (`unlinkOk`) has no
bearing on the response or on the row deletion. -/
theorem deleteGame_contract (st : ServerState) (i : Nat) (unlinkOk : Bool) :
    (matchedRows st.db.juegos i = 0 →
      deleteGame st i unlinkOk .ok .ok =
        { response := some { status := 404, error := some "Juego no encontrado." },
          state := st, effects := [.dbQuery sqlSelectImagenUrl] }) ∧
    (∀ g0, st.db.juegos.find? (fun g => g.id == i) = some g0 →
      deleteGame st i unlinkOk .ok .ok =
        { response := some { status := 200, message := some "Juego eliminado correctamente." },
          state := { db := { st.db with juegos := deleteWhereId st.db.juegos i },
                     media := if unlinkOk then st.media.erase g0.imagen_url
                              else st.media },
          effects := [.dbQuery sqlSelectImagenUrl, .dbQuery sqlDeleteGame,
                      .fsUnlink g0.imagen_url] }) := by
  constructor
  · intro h0
    have hfil : st.db.juegos.filter (fun g => g.id == i) = [] :=
      List.filter_eq_nil_iff.2 (List.countP_eq_zero.1 h0)
    unfold deleteGame
    rw [hfil]
    exact rfl
  · intro g0 hfind
    obtain ⟨tl, hfil⟩ := filter_cons_of_find _ _ _ hfind
    have hpos : matchedRows st.db.juegos i > 0 := by
      unfold matchedRows
      rw [List.countP_eq_length_filter, hfil]
      simp
    have hlen : ((((g0 :: tl).map fun g => g.imagen_url)).length == 0) = false := by
      simp
    unfold deleteGame
    rw [hfil]
    dsimp only
    rw [hlen]
    rw [if_pos hpos]
    exact rfl

/-- Witness for C2: deleting the absent id 2 on the one-game store is a
pure 404; deleting id 1 removes the row and attempts the unlink even
though the unlink fails. -/
theorem deleteGame_contract_witness :
    deleteGame stOne 2 true .ok .ok =
      { response := some { status := 404, error := some "Juego no encontrado." },
        state := stOne, effects := [.dbQuery sqlSelectImagenUrl] } ∧
    deleteGame stOne 1 false .ok .ok =
      { response := some { status := 200, message := some "Juego eliminado correctamente." },
        state := { db := { stOne.db with juegos := deleteWhereId stOne.db.juegos 1 },
                   media := stOne.media },
        effects := [.dbQuery sqlSelectImagenUrl, .dbQuery sqlDeleteGame,
                    .fsUnlink g1.imagen_url] } :=
  ⟨(deleteGame_contract stOne 2 true).1 (by decide),
   (deleteGame_contract stOne 1 false).2 g1 (by decide)⟩

/-- Claim C9: on every handler and every reachable query position, an
injected store fault is caught and turned into a 500 response whose
`error` field carries the fault message verbatim, with the state left
unchanged; every handler is a total function, so no fault escapes. -/
theorem store_faults_are_500 (st : ServerState) (m : String) :
    ((getGames st (.fault m)).response = some { status := 500, error := some m } ∧
      (getGames st (.fault m)).state = st) ∧
    ((getFavorites st (.fault m)).response = some { status := 500, error := some m } ∧
      (getFavorites st (.fault m)).state = st) ∧
    (∀ (i : Nat) (b : Option JsonVal),
      (putFavorite st i b (.fault m)).response = some { status := 500, error := some m } ∧
      (putFavorite st i b (.fault m)).state = st) ∧
    (∀ n u : String, n ≠ "" → u ≠ "" →
      (postGames st (some n) (some u) (.fault m)).response = some { status := 500, error := some m } ∧
      (postGames st (some n) (some u) (.fault m)).state = st) ∧
    (∀ (i : Nat) (u : Bool) (q2 : DbOutcome),
      (deleteGame st i u (.fault m) q2).response = some { status := 500, error := some m } ∧
      (deleteGame st i u (.fault m) q2).state = st) ∧
    (∀ (i : Nat) (u : Bool) (g0 : Game),
      st.db.juegos.find? (fun g => g.id == i) = some g0 →
      (deleteGame st i u .ok (.fault m)).response = some { status := 500, error := some m } ∧
      (deleteGame st i u .ok (.fault m)).state = st) ∧
    (∀ (i : Nat) (n : String), n ≠ "" →
      (putGameName st i (some n) (.fault m)).response = some { status := 500, error := some m } ∧
      (putGameName st i (some n) (.fault m)).state = st) ∧
    ((getFriends st (.fault m)).response = some { status := 500, error := some m } ∧
      (getFriends st (.fault m)).state = st) ∧
    (∀ n : String, n ≠ "" →
      (postFriends st (some n) (.fault m)).response = some { status := 500, error := some m } ∧
      (postFriends st (some n) (.fault m)).state = st) ∧
    (∀ i : Nat,
      (deleteFriend st i (.fault m)).response = some { status := 500, error := some m } ∧
      (deleteFriend st i (.fault m)).state = st) ∧
    (∀ (i : Nat) (n : String), n ≠ "" →
      (putFriendName st i (some n) (.fault m)).response = some { status := 500, error := some m } ∧
      (putFriendName st i (some n) (.fault m)).state = st) := by
  refine ⟨⟨rfl, rfl⟩, ⟨rfl, rfl⟩, fun i b => ⟨rfl, rfl⟩, ?_, fun i u q2 => ⟨rfl, rfl⟩,
    ?_, ?_, ⟨rfl, rfl⟩, ?_, fun i => ⟨rfl, rfl⟩, ?_⟩
  · intro n u hn hu
    have hcond : (!strTruthy (some n) || !strTruthy (some u)) = false := by
      simp [strTruthy, hn, hu]
    constructor
    · unfold postGames; rw [hcond]; exact rfl
    · unfold postGames; rw [hcond]; exact rfl
  · intro i u g0 hfind
    obtain ⟨tl, hfil⟩ := filter_cons_of_find _ _ _ hfind
    have hlen : ((((g0 :: tl).map fun g => g.imagen_url)).length == 0) = false := by
      simp
    constructor
    · unfold deleteGame; rw [hfil]; dsimp only; rw [hlen]; exact rfl
    · unfold deleteGame; rw [hfil]; dsimp only; rw [hlen]; exact rfl
  · intro i n hn
    have hcond : (!strTruthy (some n)) = false := by simp [strTruthy, hn]
    constructor
    · unfold putGameName; rw [hcond]; exact rfl
    · unfold putGameName; rw [hcond]; exact rfl
  · intro n hn
    have hcond : (!strTruthy (some n)) = false := by simp [strTruthy, hn]
    constructor
    · unfold postFriends; rw [hcond]; exact rfl
    · unfold postFriends; rw [hcond]; exact rfl
  · intro i n hn
    have hcond : (!strTruthy (some n)) = false := by simp [strTruthy, hn]
    constructor
    · unfold putFriendName; rw [hcond]; exact rfl
    · unfold putFriendName; rw [hcond]; exact rfl

/-- Witness for C9: a concrete fault on the insert query surfaces as a
500 carrying the message. -/
theorem store_faults_are_500_witness :
    (postGames st0 (some "Chess") (some "img/a.png")
        (.fault "connect ECONNREFUSED")).response =
      some { status := 500, error := some "connect ECONNREFUSED" } ∧
    (postGames st0 (some "Chess") (some "img/a.png")
        (.fault "connect ECONNREFUSED")).state = st0 :=
  (store_faults_are_500 st0 "connect ECONNREFUSED").2.2.2.1
    "Chess" "img/a.png" (by decide) (by decide)

/-! ### Decimal digit lemmas for the generated filename -/

lemma digitChar_isDigit {r : Nat} (h : r < 10) :
    (Nat.digitChar r).isDigit = true := by
  interval_cases r <;> decide

lemma digitVal_digitChar {r : Nat} (h : r < 10) :
    digitVal (Nat.digitChar r) = r := by
  interval_cases r <;> decide

lemma toDigitsCore_succ_of_eq (fuel n : Nat) (ds : List Char)
    (h0 : n / 10 = 0) :
    Nat.toDigitsCore 10 (fuel + 1) n ds = Nat.digitChar (n % 10) :: ds := by
  simp only [Nat.toDigitsCore]
  rw [if_pos h0]

lemma toDigitsCore_succ_of_ne (fuel n : Nat) (ds : List Char)
    (h0 : n / 10 ≠ 0) :
    Nat.toDigitsCore 10 (fuel + 1) n ds =
      Nat.toDigitsCore 10 fuel (n / 10) (Nat.digitChar (n % 10) :: ds) := by
  simp only [Nat.toDigitsCore]
  rw [if_neg h0]

lemma toDigitsCore_acc (n : Nat) : ∀ (fuel : Nat) (ds : List Char),
    n < fuel →
    Nat.toDigitsCore 10 fuel n ds = Nat.toDigitsCore 10 fuel n [] ++ ds := by
  induction n using Nat.strong_induction_on with
  | _ n ih =>
    intro fuel ds hf
    cases fuel with
    | zero => omega
    | succ fuel =>
      by_cases h0 : n / 10 = 0
      · rw [toDigitsCore_succ_of_eq fuel n ds h0,
          toDigitsCore_succ_of_eq fuel n [] h0]
        rfl
      · have hnpos : 0 < n := Nat.pos_of_ne_zero fun hn => h0 (by simp [hn])
        have hdiv : n / 10 < n := Nat.div_lt_self hnpos (by omega)
        rw [toDigitsCore_succ_of_ne fuel n ds h0,
          toDigitsCore_succ_of_ne fuel n [] h0,
          ih (n / 10) hdiv fuel (Nat.digitChar (n % 10) :: ds) (by omega),
          ih (n / 10) hdiv fuel [Nat.digitChar (n % 10)] (by omega)]
        simp

lemma toDigitsCore_fuel (n : Nat) : ∀ f g : Nat, n < f → n < g →
    Nat.toDigitsCore 10 f n [] = Nat.toDigitsCore 10 g n [] := by
  induction n using Nat.strong_induction_on with
  | _ n ih =>
    intro f g hf hg
    cases f with
    | zero => omega
    | succ f =>
      cases g with
      | zero => omega
      | succ g =>
        by_cases h0 : n / 10 = 0
        · rw [toDigitsCore_succ_of_eq f n [] h0, toDigitsCore_succ_of_eq g n [] h0]
        · have hnpos : 0 < n := Nat.pos_of_ne_zero fun hn => h0 (by simp [hn])
          have hdiv : n / 10 < n := Nat.div_lt_self hnpos (by omega)
          rw [toDigitsCore_succ_of_ne f n [] h0, toDigitsCore_succ_of_ne g n [] h0,
            toDigitsCore_acc (n / 10) f _ (by omega),
            toDigitsCore_acc (n / 10) g _ (by omega),
            ih (n / 10) hdiv f g (by omega) (by omega)]

lemma toDigits_small {n : Nat} (h : n < 10) :
    Nat.toDigits 10 n = [Nat.digitChar n] := by
  show Nat.toDigitsCore 10 (n + 1) n [] = [Nat.digitChar n]
  rw [toDigitsCore_succ_of_eq n n [] (Nat.div_eq_of_lt h), Nat.mod_eq_of_lt h]

lemma toDigits_step {n : Nat} (h : 10 ≤ n) :
    Nat.toDigits 10 n = Nat.toDigits 10 (n / 10) ++ [Nat.digitChar (n % 10)] := by
  have h0 : n / 10 ≠ 0 := by
    have h1 : 1 ≤ n / 10 := (Nat.one_le_div_iff (by omega)).2 h
    omega
  have hdiv : n / 10 < n := Nat.div_lt_self (by omega) (by omega)
  show Nat.toDigitsCore 10 (n + 1) n [] =
    Nat.toDigitsCore 10 (n / 10 + 1) (n / 10) [] ++ [Nat.digitChar (n % 10)]
  rw [toDigitsCore_succ_of_ne n n [] h0,
    toDigitsCore_acc (n / 10) n [Nat.digitChar (n % 10)] hdiv,
    toDigitsCore_fuel (n / 10) n (n / 10 + 1) hdiv (Nat.lt_succ_self _)]

lemma toDigits_isDigit (n : Nat) :
    ∀ c ∈ Nat.toDigits 10 n, c.isDigit = true := by
  induction n using Nat.strong_induction_on with
  | _ n ih =>
    by_cases h : n < 10
    · rw [toDigits_small h]
      intro c hc
      rw [List.mem_singleton.1 hc]
      exact digitChar_isDigit h
    · rw [toDigits_step (by omega)]
      intro c hc
      rcases List.mem_append.1 hc with hc | hc
      · exact ih (n / 10) (Nat.div_lt_self (by omega) (by omega)) c hc
      · rw [List.mem_singleton.1 hc]
        exact digitChar_isDigit (Nat.mod_lt _ (by omega))

lemma valOfDigits_append_singleton (l : List Char) (c : Char) :
    valOfDigits (l ++ [c]) = 10 * valOfDigits l + digitVal c := by
  simp [valOfDigits, List.foldl_append]

lemma valOfDigits_toDigits (n : Nat) :
    valOfDigits (Nat.toDigits 10 n) = n := by
  induction n using Nat.strong_induction_on with
  | _ n ih =>
    by_cases h : n < 10
    · rw [toDigits_small h]
      simp [valOfDigits, digitVal_digitChar h]
    · rw [toDigits_step (by omega), valOfDigits_append_singleton,
        ih (n / 10) (Nat.div_lt_self (by omega) (by omega)),
        digitVal_digitChar (Nat.mod_lt _ (by omega))]
      omega

lemma repr_data (n : Nat) : (Nat.repr n).data = Nat.toDigits 10 n := rfl

lemma repr_injective {m n : Nat}
    (h : (Nat.repr m).data = (Nat.repr n).data) : m = n := by
  have h2 : Nat.toDigits 10 m = Nat.toDigits 10 n := by
    rw [← repr_data, ← repr_data, h]
  have h3 := valOfDigits_toDigits m
  rw [h2, valOfDigits_toDigits] at h3
  exact h3.symm

lemma dash_not_in_repr (n : Nat) : '-' ∉ (Nat.repr n).data := by
  rw [repr_data]
  intro hc
  have := toDigits_isDigit n '-' hc
  exact absurd this (by decide)

lemma append_sep_inj {α : Type} {c : α} :
    ∀ {l1 l2 m1 m2 : List α}, c ∉ l1 → c ∉ l2 →
      l1 ++ c :: m1 = l2 ++ c :: m2 → l1 = l2 ∧ m1 = m2 := by
  intro l1
  induction l1 with
  | nil =>
    intro l2 m1 m2 _ h2 heq
    cases l2 with
    | nil => simpa using heq
    | cons b t =>
      simp only [List.nil_append, List.cons_append, List.cons.injEq] at heq
      exfalso
      apply h2
      rw [heq.1]
      exact List.mem_cons_self b t
  | cons a t ih =>
    intro l2 m1 m2 h1 h2 heq
    cases l2 with
    | nil =>
      simp only [List.nil_append, List.cons_append, List.cons.injEq] at heq
      exfalso
      apply h1
      rw [← heq.1]
      exact List.mem_cons_self a t
    | cons b t2 =>
      simp only [List.cons_append, List.cons.injEq] at heq
      obtain ⟨rfl, heq2⟩ := heq
      have hr := ih (fun hm => h1 (List.mem_cons_of_mem a hm))
        (fun hm => h2 (List.mem_cons_of_mem a hm)) heq2
      exact ⟨by rw [hr.1], hr.2⟩

/-- Claim C8 (counterexample): two uploads that land on the same
`Date.now()` millisecond and draw the same `Math.random` value collide:
the generated filename depends only on the field name, the time+random
suffix and the extension, so these two distinct uploads (here even with
different original names) get the *same* stored filename and the second
overwrites the first.  A fortiori the same holds for identical original
names. -/
theorem upload_name_collision :
    genFilename { fieldname := "image", originalname := "a.png",
                  timestamp := 1000, rand := 42 } =
    genFilename { fieldname := "image", originalname := "b.png",
                  timestamp := 1000, rand := 42 } := by
  decide

/-- Claim C8 (amended): the generated filenames of two uploads with the
same field name and equal original-name extensions are distinct whenever
the `Date.now()` timestamp or the `Math.random` component differs — the
collision-resistance the scheme actually provides (uploads sharing both
the millisecond and the random draw can still collide). -/
theorem genFilename_distinct_of_suffix_ne (f1 f2 : UploadFile)
    (hfield : f1.fieldname = f2.fieldname)
    (hext : extname f1.originalname = extname f2.originalname)
    (hne : f1.timestamp ≠ f2.timestamp ∨ f1.rand ≠ f2.rand) :
    genFilename f1 ≠ genFilename f2 := by
  intro h
  unfold genFilename at h
  rw [hfield, hext] at h
  have hd := congrArg String.data h
  have hdash : ("-" : String).data = ['-'] := rfl
  simp only [String.data_append, hdash, List.append_assoc, List.cons_append,
    List.nil_append] at hd
  have hd2 := List.append_cancel_left hd
  simp only [List.cons.injEq, true_and] at hd2
  obtain ⟨hts, hrest⟩ :=
    append_sep_inj (dash_not_in_repr f1.timestamp)
      (dash_not_in_repr f2.timestamp) hd2
  have ht : f1.timestamp = f2.timestamp := repr_injective hts
  have hr : f1.rand = f2.rand :=
    repr_injective (List.append_cancel_right hrest)
  rcases hne with hne | hne
  · exact hne ht
  · exact hne hr

/-- Witness for the amended C8: same original name and timestamp,
different random component, distinct stored filenames. -/
theorem genFilename_distinct_witness :
    genFilename { fieldname := "image", originalname := "foto.png",
                  timestamp := 1000, rand := 1 } ≠
    genFilename { fieldname := "image", originalname := "foto.png",
                  timestamp := 1000, rand := 2 } :=
  genFilename_distinct_of_suffix_ne _ _ rfl rfl (Or.inr (by decide))

end GameSrv
